import Mathlib

/-!
Verification of the Tagent worker service (src/worker/live_stream.py and
src/worker/main.py) against its natural-language specification.

The embedding is shallow: each Python function relevant to the claims is
translated into an executable Lean definition over explicit state and
outcome parameters.  Awaited or blocking calls are modelled as operations
in an emitted trace; an operation whose outcome is `stalls` never returns,
so the trace is truncated at that point, while an operation whose outcome
is `raisesError` returns control to the surrounding try/except block as in
the source.
-/

namespace Tagent

/-! Frame relay: model of LiveBrowserStream._on_frame (live_stream.py). -/

/-- Outcome of one blocking or awaited call in the frame handler. -/
inductive SendOutcome
  | completesOk
  | raisesError
  | stalls
deriving DecidableEq, Repr

/-- JSON scalar values appearing in the frame message. -/
inductive JVal
  | str (s : String)
  | num (n : Int)
deriving DecidableEq, Repr

/-- Parameters of one Page.screencastFrame event delivered by the engine:
the base64 frame data, the capture timestamp from the metadata object, and
the integer frame handle used for the acknowledgment. -/
structure ScreencastFrame where
  data : String
  metadataTimestamp : Int
  frameHandle : Int
deriving DecidableEq, Repr

/-- Observable operations performed by the frame handler, in program order. -/
inductive FrameOp
  | publishRedis (channel : String) (message : List (String × JVal))
  | wsSend (message : List (String × JVal))
  | ackFrame (handle : Int)
deriving DecidableEq, Repr

/-- The frame message dict built at the top of _on_frame
(live_stream.py lines 213-218): keys type, sessionId, data, timestamp. -/
def frame_data (streamSid : String) (p : ScreencastFrame) : List (String × JVal) :=
  [("type", JVal.str "frame"),
   ("sessionId", JVal.str streamSid),
   ("data", JVal.str p.data),
   ("timestamp", JVal.num p.metadataTimestamp)]

/-- Trace semantics of LiveBrowserStream._on_frame (live_stream.py lines
209-246).  The Redis publish sits in its own try/except, the WebSocket send
sits in its own try/except and only runs when self.ws is set, and the
acknowledgment call follows both; the outer try/except catches an error
raised by the acknowledgment itself.  A call whose outcome is `stalls`
never returns, so nothing after it appears in the trace. -/
def on_frame (streamSid : String) (wsPresent : Bool)
    (redisOut wsOut : SendOutcome) (p : ScreencastFrame) : List FrameOp :=
  let t1 := [FrameOp.publishRedis ("browser:frames:" ++ streamSid) (frame_data streamSid p)]
  if redisOut = SendOutcome.stalls then t1
  else if wsPresent then
    let t2 := t1 ++ [FrameOp.wsSend (frame_data streamSid p)]
    if wsOut = SendOutcome.stalls then t2
    else t2 ++ [FrameOp.ackFrame p.frameHandle]
  else t1 ++ [FrameOp.ackFrame p.frameHandle]

/-- Recognizer for acknowledgment operations in a frame-handler trace. -/
def isAckOp : FrameOp → Bool
  | FrameOp.ackFrame _ => true
  | _ => false

/-- Channel of a publish operation, if the operation is a publish. -/
def channelOf : FrameOp → Option String
  | FrameOp.publishRedis c _ => some c
  | _ => none

/-- Channels of all Redis publish operations in a trace, in order. -/
def publishChannels (t : List FrameOp) : List String :=
  t.filterMap channelOf

/-! Session store update: model of the success path of
LiveBrowserStream.start (live_stream.py lines 191-197). -/

/-- The Redis hset call performed by LiveBrowserStream.start once capture
has started: key and field map written for the session. -/
def start_session_update (sid : String) (now : Int) : String × List (String × String) :=
  ("session:" ++ sid,
   [("browser_ready", "true"),
    ("worker_ready", "true"),
    ("workerConnected", "true"),
    ("status", "active"),
    ("stream_started_at", toString now)])

/-! Authenticated duplex tunnel: model of websockify_endpoint (main.py
lines 477-595, the live validation and bridge block).  Note that the
source module does not parse (line 587); see websockify_endpoint_repaired
below. -/

/-- Decoded JWT payload fields used by the endpoint. -/
structure Payload where
  sessionId : Option String
  agentId : Option String
  exp : Option Int
deriving DecidableEq, Repr

/-- A presented bearer token: whether its serialized form decodes, whether
its signature verifies under the shared secret, and its payload. -/
structure Token where
  wellFormed : Bool
  sigValid : Bool
  payload : Payload
deriving DecidableEq, Repr

/-- Errors raised by jwt.decode, in the order the library checks them. -/
inductive JwtError
  | decodeError
  | invalidSignature
  | expiredSignature
deriving DecidableEq, Repr

/-- Model of jwt.decode with HS256 under the shared secret: a token that
does not decode raises DecodeError, a decodable token whose signature does
not verify raises InvalidSignatureError, and a verified token whose exp
claim is present and not in the future raises ExpiredSignatureError. -/
def jwtDecode (now : Int) (t : Token) : Except JwtError Payload :=
  if t.wellFormed then
    if t.sigValid then
      match t.payload.exp with
      | some e =>
          if e ≤ now then Except.error JwtError.expiredSignature else Except.ok t.payload
      | none => Except.ok t.payload
    else Except.error JwtError.invalidSignature
  else Except.error JwtError.decodeError

/-- Python truthiness of an optional string: None and the empty string are
falsy. -/
def truthy : Option String → Bool
  | none => false
  | some s => !(s == "")

/-- Python `a or b` on optional strings: b is used when a is falsy. -/
def pyOr (a b : Option String) : Option String :=
  if truthy a then a else b

/-- Observable events of one tunnel connection, in program order. -/
inductive TunnelEvent
  | close (reason : String)
  | warnMismatch
  | accept
  | connectUpstream
  | relay
deriving DecidableEq, Repr

/-- Events emitted by the session mismatch check: the warning when the
mismatch condition holds, nothing otherwise. -/
def warnEvents (mismatch : Bool) : List TunnelEvent :=
  if mismatch then [TunnelEvent.warnMismatch] else []

/-- Events of the post-validation bridge (the repaired lines 544-595): the
connection is accepted, then the upstream connect to the local noVNC
websockify endpoint is attempted.  On success the two relay loops start,
which is the relaying state; on failure the repaired except block closes
the client connection with no reason, modelled as a close event carrying
the empty string. -/
def bridgeEvents (upstreamOk : Bool) : List TunnelEvent :=
  TunnelEvent.accept :: TunnelEvent.connectUpstream ::
    (if upstreamOk then [TunnelEvent.relay] else [TunnelEvent.close ""])

/-- Trace semantics of the websockify endpoint validation and bridge block
(main.py lines 477-595).  The source function as shipped does not parse:
the except clause on line 587 is indented under the async-with block
instead of aligning with the try on line 551, so the whole module fails
at load time and the endpoint never runs.  The claims about this function are
therefore settled as a code bug, and this definition embeds the function
under the minimal repair the surrounding code evidently intends, namely
dedenting that except clause to match the try on line 551 (its body
closes the client connection after a bridge error, referencing the
bridge-scope state), in order to document the intended behaviour.  A
missing token closes with reason Missing token; the three jwt.decode
errors close with reasons Invalid token format, Invalid signature and
Token expired; after a successful decode, a mismatch between the token
session (payload sessionId or agentId) and the sessionId query parameter
is logged as a warning only; the manual expiry re-check mirrors lines
516-523; only then is the connection accepted and the upstream connect
attempted, with the upstreamOk parameter giving the outcome of that
connect as modelled by bridgeEvents. -/
def websockify_endpoint_repaired (now : Int) (token? : Option Token) (sid? : Option String)
    (upstreamOk : Bool) : List TunnelEvent :=
  match token? with
  | none => [TunnelEvent.close "Missing token"]
  | some tok =>
    match jwtDecode now tok with
    | Except.error JwtError.expiredSignature => [TunnelEvent.close "Token expired"]
    | Except.error JwtError.invalidSignature => [TunnelEvent.close "Invalid signature"]
    | Except.error JwtError.decodeError => [TunnelEvent.close "Invalid token format"]
    | Except.ok payload =>
      let tokenSession := pyOr payload.sessionId payload.agentId
      let mismatch := truthy tokenSession && truthy sid? && (tokenSession != sid?)
      match payload.exp with
      | some e =>
          if e ≤ now then warnEvents mismatch ++ [TunnelEvent.close "Token expired"]
          else warnEvents mismatch ++ bridgeEvents upstreamOk
      | none => warnEvents mismatch ++ bridgeEvents upstreamOk

/-! Browser-facing command surface. -/

/-- Commands of the per-session command surface. -/
inductive BrowserCommand
  | navigate (url : String)
  | click (selector : String)
  | typeText (selector text : String)
  | scroll (dx dy : Int)
deriving DecidableEq, Repr

/-- Input-injection effects on the streaming actor page, matching the
LiveBrowserStream methods navigate, click, type and scroll
(live_stream.py lines 249-263). -/
inductive ActorEffect
  | pageGoto (url : String)
  | pageClick (selector : String)
  | pageType (selector text : String)
  | pageScrollBy (dx dy : Int)
deriving DecidableEq, Repr

/-- Responses of the command surface. -/
inductive CommandResponse
  | ok
  | streamNotFound
deriving DecidableEq, Repr

/-- Modelled from the spec: the dispatcher of the browser-facing command
surface is not among the source files under src (only the streaming-actor
operations it calls, LiveBrowserStream.navigate, click, type and scroll,
are).  Spec section 6: navigate, click, type and scroll each return a
status ok response, or an error response saying stream not found when no
actor exists for the session.  Spec Scenario E: a click command for a
session with no active actor returns the stream-not-found error without
side effects.  The actors argument is the set of session ids currently
holding a streaming actor; the result pairs the response with the
input-injection effects performed on the actor page. -/
def dispatch_command (actors : List String) (sid : String) (cmd : BrowserCommand) :
    CommandResponse × List ActorEffect :=
  if actors.contains sid then
    (CommandResponse.ok,
      match cmd with
      | BrowserCommand.navigate u => [ActorEffect.pageGoto u]
      | BrowserCommand.click s => [ActorEffect.pageClick s]
      | BrowserCommand.typeText s t => [ActorEffect.pageType s t]
      | BrowserCommand.scroll dx dy => [ActorEffect.pageScrollBy dx dy])
  else (CommandResponse.streamNotFound, [])

/-! External agent endpoints: model of browser_use_task, skyvern_task,
lavague_task and stagehand_task (main.py lines 732-897). -/

/-- Result returned by an external agent framework execute call: the list
of actions it reports and an optional screenshot. -/
structure AgentResult where
  actions : List String
  screenshot : Option String
deriving DecidableEq, Repr

/-- Data field of an agent endpoint response: the framework result on
success, or an object holding the error message on failure. -/
inductive AgentData
  | result (r : AgentResult)
  | errorMsg (msg : String)
deriving DecidableEq, Repr

/-- Shape of an agent endpoint response body: the fields common to all
four endpoints. -/
structure AgentResponse where
  success : Bool
  data : AgentData
  actionsExecuted : Nat
  agentType : String
deriving DecidableEq, Repr

/-- Model of the browser-use endpoint (main.py lines 732-774): any
exception from setup or execution is caught and turned into a failure
response; on success the result is returned with success true,
actionsExecuted 1 and agentType browser-use. -/
def browser_use_task (outcome : Except String AgentResult) : AgentResponse :=
  match outcome with
  | Except.ok r => ⟨true, AgentData.result r, 1, "browser-use"⟩
  | Except.error e => ⟨false, AgentData.errorMsg e, 0, "browser-use"⟩

/-- Model of the skyvern endpoint (main.py lines 776-815). -/
def skyvern_task (outcome : Except String AgentResult) : AgentResponse :=
  match outcome with
  | Except.ok r => ⟨true, AgentData.result r, r.actions.length, "skyvern"⟩
  | Except.error e => ⟨false, AgentData.errorMsg e, 0, "skyvern"⟩

/-- Model of the lavague endpoint (main.py lines 817-856). -/
def lavague_task (outcome : Except String AgentResult) : AgentResponse :=
  match outcome with
  | Except.ok r => ⟨true, AgentData.result r, r.actions.length, "lavague"⟩
  | Except.error e => ⟨false, AgentData.errorMsg e, 0, "lavague"⟩

/-- Model of the stagehand endpoint (main.py lines 858-897). -/
def stagehand_task (outcome : Except String AgentResult) : AgentResponse :=
  match outcome with
  | Except.ok r => ⟨true, AgentData.result r, r.actions.length, "stagehand"⟩
  | Except.error e => ⟨false, AgentData.errorMsg e, 0, "stagehand"⟩

/-! Theorems. -/

/-- Case analysis for the warning events: empty or the single warning. -/
theorem warnEvents_cases (b : Bool) :
    warnEvents b = [] ∨ warnEvents b = [TunnelEvent.warnMismatch] := by
  cases b <;> simp [warnEvents]

/-- Membership in the warning events. -/
theorem mem_warnEvents (x : TunnelEvent) (b : Bool) :
    x ∈ warnEvents b ↔ (b = true ∧ x = TunnelEvent.warnMismatch) := by
  cases b <;> simp [warnEvents]

/-- Membership in the bridge events. -/
theorem mem_bridgeEvents (x : TunnelEvent) (up : Bool) :
    x ∈ bridgeEvents up ↔
      x = TunnelEvent.accept ∨ x = TunnelEvent.connectUpstream ∨
      (up = true ∧ x = TunnelEvent.relay) ∨ (up = false ∧ x = TunnelEvent.close "") := by
  cases up <;> simp [bridgeEvents]

/-- Characterization of reaching the relaying state in the repaired
endpoint: the relay event is in the trace exactly when the token decodes,
its signature verifies, any exp claim lies in the future, and the upstream
connect succeeds. -/
theorem relay_mem_iff (now : Int) (tok : Token) (sid? : Option String) (up : Bool) :
    TunnelEvent.relay ∈ websockify_endpoint_repaired now (some tok) sid? up ↔
      (tok.wellFormed = true ∧ tok.sigValid = true ∧
        (∀ e, tok.payload.exp = some e → now < e) ∧ up = true) := by
  obtain ⟨wf, sv, ⟨tsid, taid, texp⟩⟩ := tok
  cases wf <;> cases sv <;> cases texp with
  | none =>
      simp [websockify_endpoint_repaired, jwtDecode, mem_warnEvents, mem_bridgeEvents]
  | some e =>
      rcases le_or_lt e now with hle | hlt
      · have h1 : ¬ now < e := by omega
        simp [websockify_endpoint_repaired, jwtDecode, hle, h1, mem_warnEvents,
          mem_bridgeEvents]
      · have h2 : ¬ e ≤ now := by omega
        simp [websockify_endpoint_repaired, jwtDecode, h2, hlt, mem_warnEvents,
          mem_bridgeEvents]

/-- Shape of every trace of the repaired endpoint: either a single close
event, or the token decoded successfully and the trace is the bridge
sequence, possibly preceded by the mismatch warning. -/
theorem websockify_shape (now : Int) (token? : Option Token) (sid? : Option String)
    (up : Bool) :
    (∃ r, websockify_endpoint_repaired now token? sid? up = [TunnelEvent.close r]) ∨
    ((∃ tok, token? = some tok ∧ jwtDecode now tok = Except.ok tok.payload) ∧
      ∃ w, (w = ([] : List TunnelEvent) ∨ w = [TunnelEvent.warnMismatch]) ∧
        websockify_endpoint_repaired now token? sid? up = w ++ bridgeEvents up) := by
  cases token? with
  | none => exact Or.inl ⟨"Missing token", rfl⟩
  | some tok =>
      obtain ⟨wf, sv, ⟨tsid, taid, texp⟩⟩ := tok
      cases wf with
      | false =>
          exact Or.inl ⟨"Invalid token format",
            by simp [websockify_endpoint_repaired, jwtDecode]⟩
      | true =>
        cases sv with
        | false =>
            exact Or.inl ⟨"Invalid signature",
              by simp [websockify_endpoint_repaired, jwtDecode]⟩
        | true =>
          cases texp with
          | none =>
              refine Or.inr ⟨⟨_, rfl, by simp [jwtDecode]⟩,
                warnEvents (truthy (pyOr tsid taid) && truthy sid? &&
                  (pyOr tsid taid != sid?)),
                warnEvents_cases _, ?_⟩
              simp [websockify_endpoint_repaired, jwtDecode]
          | some e =>
              by_cases hle : e ≤ now
              · exact Or.inl ⟨"Token expired",
                  by simp [websockify_endpoint_repaired, jwtDecode, hle]⟩
              · refine Or.inr ⟨⟨_, rfl, by simp [jwtDecode, hle]⟩,
                  warnEvents (truthy (pyOr tsid taid) && truthy sid? &&
                    (pyOr tsid taid != sid?)),
                  warnEvents_cases _, ?_⟩
                simp [websockify_endpoint_repaired, jwtDecode, hle]

/-- C1: for every frame delivered to the handler, the acknowledgment is
called exactly once, including when the Redis publish raises and when the
consumer WebSocket send raises, because each forwarding call sits in its
own try/except: forwarding failure never suppresses the acknowledgment.
The hypotheses say each forwarding call completes, returning or raising. -/
theorem C1_ack_exactly_once (sid : String) (wsPresent : Bool)
    (redisOut wsOut : SendOutcome) (p : ScreencastFrame)
    (hr : redisOut ≠ SendOutcome.stalls)
    (hw : wsPresent = true → wsOut ≠ SendOutcome.stalls) :
    (on_frame sid wsPresent redisOut wsOut p).countP isAckOp = 1 ∧
    FrameOp.ackFrame p.frameHandle ∈ on_frame sid wsPresent redisOut wsOut p := by
  cases wsPresent <;>
    simp_all [on_frame, isAckOp, frame_data, List.countP_append, List.countP_cons]

/-- C1 witness: both forwarding calls raise and the acknowledgment is
still issued exactly once. -/
theorem C1_ack_exactly_once_witness :
    (on_frame "s1" true SendOutcome.raisesError SendOutcome.raisesError
        ⟨"img", 3, 9⟩).countP isAckOp = 1 ∧
    FrameOp.ackFrame 9 ∈ on_frame "s1" true SendOutcome.raisesError SendOutcome.raisesError
        ⟨"img", 3, 9⟩ :=
  C1_ack_exactly_once "s1" true SendOutcome.raisesError SendOutcome.raisesError
    ⟨"img", 3, 9⟩ (by decide) (fun _ => by decide)

/-- C5: the claim says a permanently stalled consumer channel cannot
prevent the acknowledgment, but the handler awaits the WebSocket send with
no timeout and no drop, so when that send never completes the
acknowledgment operation is never reached.  Evaluation of the handler at
the failing input: connected consumer channel, Redis publish fine,
consumer send stalled. -/
theorem C5_stalled_consumer_suppresses_ack :
    (on_frame "s1" true SendOutcome.completesOk SendOutcome.stalls
        ⟨"img", 3, 9⟩).countP isAckOp = 0 := by
  decide

/-- C4 counterexample: the claim says the session entry shows status ready
and a readyAt timestamp, but the update written by LiveBrowserStream.start
sets status to active and a stream_started_at timestamp; no readyAt field
is written. -/
theorem C4_status_counterexample :
    List.lookup "status" (start_session_update "s1" 0).2 = some "active" ∧
    (some "active" : Option String) ≠ some "ready" ∧
    List.lookup "readyAt" (start_session_update "s1" 0).2 = none := by
  decide

/-- C4 (amended): when capture start succeeds for a session, the store
entry for that session is updated with browser readiness true, worker
connected true, status active, and a stream_started_at timestamp. -/
theorem C4_start_marks_active (sid : String) (now : Int) :
    (start_session_update sid now).1 = "session:" ++ sid ∧
    List.lookup "browser_ready" (start_session_update sid now).2 = some "true" ∧
    List.lookup "workerConnected" (start_session_update sid now).2 = some "true" ∧
    List.lookup "status" (start_session_update sid now).2 = some "active" ∧
    List.lookup "stream_started_at" (start_session_update sid now).2 = some (toString now) := by
  refine ⟨rfl, ?_, ?_, ?_, ?_⟩ <;> rfl

/-- C6 counterexample: the claim says frames are published to the channel
frames:sessionId, but the handler publishes only to the channel
browser:frames:sessionId. -/
theorem C6_channel_counterexample :
    publishChannels (on_frame "s1" false SendOutcome.completesOk SendOutcome.completesOk
        ⟨"img", 5, 2⟩) = ["browser:frames:s1"] ∧
    "browser:frames:s1" ≠ "frames:s1" := by
  decide

/-- C6 (amended): for every captured frame of a session, the handler
publishes exactly one message, to the channel browser:frames:sessionId,
and that message is the JSON object with exactly the keys type (frame),
sessionId, data and timestamp. -/
theorem C6_frame_publish (sid : String) (wsPresent : Bool)
    (redisOut wsOut : SendOutcome) (p : ScreencastFrame) :
    publishChannels (on_frame sid wsPresent redisOut wsOut p) = ["browser:frames:" ++ sid] ∧
    FrameOp.publishRedis ("browser:frames:" ++ sid)
        [("type", JVal.str "frame"), ("sessionId", JVal.str sid),
         ("data", JVal.str p.data), ("timestamp", JVal.num p.metadataTimestamp)]
      ∈ on_frame sid wsPresent redisOut wsOut p := by
  cases wsPresent <;> cases redisOut <;> cases wsOut <;>
    simp [on_frame, frame_data, publishChannels, channelOf]

/-- C9: each of the four external agent endpoints turns any exception from
the framework into the response success false, data holding the error
message, actionsExecuted 0 and the agentType of the endpoint, and never
propagates the exception; on success each returns the framework result
with success true and the agentType field. -/
theorem C9_agent_endpoint_contract (e : String) (r : AgentResult) :
    browser_use_task (Except.error e) = ⟨false, AgentData.errorMsg e, 0, "browser-use"⟩ ∧
    skyvern_task (Except.error e) = ⟨false, AgentData.errorMsg e, 0, "skyvern"⟩ ∧
    lavague_task (Except.error e) = ⟨false, AgentData.errorMsg e, 0, "lavague"⟩ ∧
    stagehand_task (Except.error e) = ⟨false, AgentData.errorMsg e, 0, "stagehand"⟩ ∧
    browser_use_task (Except.ok r) = ⟨true, AgentData.result r, 1, "browser-use"⟩ ∧
    skyvern_task (Except.ok r) = ⟨true, AgentData.result r, r.actions.length, "skyvern"⟩ ∧
    lavague_task (Except.ok r) = ⟨true, AgentData.result r, r.actions.length, "lavague"⟩ ∧
    stagehand_task (Except.ok r) = ⟨true, AgentData.result r, r.actions.length, "stagehand"⟩ :=
  ⟨rfl, rfl, rfl, rfl, rfl, rfl, rfl, rfl⟩

/-- C8: a browser-facing command for a session with no streaming actor
returns the stream-not-found error and performs no effect; when an actor
exists the command returns the ok status. -/
theorem C8_commands_require_actor (actors : List String) (sid : String)
    (cmd : BrowserCommand) :
    (actors.contains sid = false →
        dispatch_command actors sid cmd = (CommandResponse.streamNotFound, [])) ∧
    (actors.contains sid = true →
        (dispatch_command actors sid cmd).1 = CommandResponse.ok) := by
  refine ⟨fun h => ?_, fun h => ?_⟩
  · have hm : sid ∉ actors := by simpa using h
    simp [dispatch_command, hm]
  · have hm : sid ∈ actors := by simpa using h
    simp [dispatch_command, hm]

/-- C8 witness: a click for a session with no actor yields the
stream-not-found error with no effects, and the same click with an actor
yields the ok status. -/
theorem C8_commands_require_actor_witness :
    dispatch_command [] "s1" (BrowserCommand.click "a") =
      (CommandResponse.streamNotFound, []) ∧
    (dispatch_command ["s1"] "s1" (BrowserCommand.click "a")).1 = CommandResponse.ok :=
  ⟨(C8_commands_require_actor [] "s1" (BrowserCommand.click "a")).1 (by decide),
   (C8_commands_require_actor ["s1"] "s1" (BrowserCommand.click "a")).2 (by decide)⟩

/-- C2: the claim fails on the code as shipped, because src/worker/main.py
does not parse (line 587) and so no inbound tunnel connection is ever
validated, closed with a reason, or relayed; this theorem documents that
the claim describes the evident intent, proved against the minimally
repaired endpoint: a missing token closes with reason Missing token, an
undecodable token with Invalid token format, a bad signature with Invalid
signature, an expired token with Token expired, in each of these cases the
relaying state is never reached, and a token that verifies and is
unexpired reaches the relaying state exactly when the upstream connect
succeeds (the final conjunct characterizes relaying in both
directions). -/
theorem C2_auth_rejection (now : Int) (tok : Token) (sid? : Option String) (up : Bool) :
    websockify_endpoint_repaired now none sid? up = [TunnelEvent.close "Missing token"] ∧
    (tok.wellFormed = false →
        websockify_endpoint_repaired now (some tok) sid? up =
          [TunnelEvent.close "Invalid token format"]) ∧
    (tok.wellFormed = true → tok.sigValid = false →
        websockify_endpoint_repaired now (some tok) sid? up =
          [TunnelEvent.close "Invalid signature"]) ∧
    (tok.wellFormed = true → tok.sigValid = true →
        ∀ e, tok.payload.exp = some e → e ≤ now →
          websockify_endpoint_repaired now (some tok) sid? up =
            [TunnelEvent.close "Token expired"]) ∧
    (TunnelEvent.relay ∈ websockify_endpoint_repaired now (some tok) sid? up ↔
      (tok.wellFormed = true ∧ tok.sigValid = true ∧
        (∀ e, tok.payload.exp = some e → now < e) ∧ up = true)) := by
  refine ⟨rfl, fun h1 => ?_, fun h1 h2 => ?_, fun h1 h2 e he hle => ?_,
    relay_mem_iff now tok sid? up⟩
  · simp [websockify_endpoint_repaired, jwtDecode, h1]
  · simp [websockify_endpoint_repaired, jwtDecode, h1, h2]
  · simp [websockify_endpoint_repaired, jwtDecode, h1, h2, he, hle]

/-- C2 witness: concrete tokens exercising the undecodable, bad-signature,
expired and valid cases with a succeeding upstream connect. -/
theorem C2_auth_rejection_witness :
    websockify_endpoint_repaired 100 (some ⟨false, true, ⟨none, none, none⟩⟩) none true =
      [TunnelEvent.close "Invalid token format"] ∧
    websockify_endpoint_repaired 100 (some ⟨true, false, ⟨none, none, none⟩⟩) none true =
      [TunnelEvent.close "Invalid signature"] ∧
    websockify_endpoint_repaired 100 (some ⟨true, true, ⟨none, none, some 50⟩⟩) none true =
      [TunnelEvent.close "Token expired"] ∧
    TunnelEvent.relay ∈
      websockify_endpoint_repaired 100 (some ⟨true, true, ⟨none, none, some 200⟩⟩) none true :=
  ⟨(C2_auth_rejection 100 ⟨false, true, ⟨none, none, none⟩⟩ none true).2.1 rfl,
   (C2_auth_rejection 100 ⟨true, false, ⟨none, none, none⟩⟩ none true).2.2.1 rfl rfl,
   (C2_auth_rejection 100 ⟨true, true, ⟨none, none, some 50⟩⟩ none true).2.2.2.1 rfl rfl 50 rfl
     (by decide),
   (C2_auth_rejection 100 ⟨true, true, ⟨none, none, some 200⟩⟩ none true).2.2.2.2.mpr
     ⟨rfl, rfl, fun e he => by simp at he; omega, rfl⟩⟩

/-- C3: the claim fails on the code as shipped, because src/worker/main.py
does not parse (line 587) and the endpoint never runs; this theorem
documents that the claim describes the evident intent, proved against the
minimally repaired endpoint for either outcome of the upstream connect:
on every credential rejection path (missing token, or any jwt.decode
failure, which covers the undecodable, bad-signature and expired classes)
no handshake is completed and no upstream connect is attempted; the
handshake-completion event occurs only when validation succeeded; and the
upstream connect is attempted only on a trace with a completed
handshake. -/
theorem C3_validate_before_handshake (now : Int) (token? : Option Token)
    (sid? : Option String) (up : Bool) :
    (token? = none →
        TunnelEvent.accept ∉ websockify_endpoint_repaired now token? sid? up ∧
        TunnelEvent.connectUpstream ∉ websockify_endpoint_repaired now token? sid? up) ∧
    (∀ tok err, token? = some tok → jwtDecode now tok = Except.error err →
        TunnelEvent.accept ∉ websockify_endpoint_repaired now token? sid? up ∧
        TunnelEvent.connectUpstream ∉ websockify_endpoint_repaired now token? sid? up) ∧
    (TunnelEvent.accept ∈ websockify_endpoint_repaired now token? sid? up →
        ∃ tok, token? = some tok ∧ jwtDecode now tok = Except.ok tok.payload) ∧
    (TunnelEvent.connectUpstream ∈ websockify_endpoint_repaired now token? sid? up →
        TunnelEvent.accept ∈ websockify_endpoint_repaired now token? sid? up) := by
  rcases websockify_shape now token? sid? up with ⟨r, hr⟩ | ⟨hok, w, hw, htr⟩
  · refine ⟨fun _ => ?_, fun tok err _ _ => ?_, fun h => ?_, fun h => ?_⟩
    · rw [hr]; simp
    · rw [hr]; simp
    · rw [hr] at h; simp at h
    · rw [hr] at h; simp at h
  · refine ⟨fun hnone => ?_, fun tok err htok herr => ?_, fun _ => hok, fun _ => ?_⟩
    · obtain ⟨tok0, htok0, _⟩ := hok
      rw [hnone] at htok0
      exact Option.noConfusion htok0
    · obtain ⟨tok2, htok2, hok2⟩ := hok
      rw [htok] at htok2
      obtain rfl : tok = tok2 := Option.some.inj htok2
      rw [herr] at hok2
      exact Except.noConfusion hok2
    · rw [htr]; rcases hw with rfl | rfl <;> simp [bridgeEvents]

/-- C3 witness: a missing-token rejection and an undecodable-token
rejection each have neither the handshake nor the upstream connect in
their traces, and an accepted connection exhibits a successfully decoded
token. -/
theorem C3_validate_before_handshake_witness :
    (TunnelEvent.accept ∉ websockify_endpoint_repaired 0 none none true ∧
     TunnelEvent.connectUpstream ∉ websockify_endpoint_repaired 0 none none true) ∧
    (TunnelEvent.accept ∉
        websockify_endpoint_repaired 0 (some ⟨false, true, ⟨none, none, none⟩⟩) none true ∧
     TunnelEvent.connectUpstream ∉
        websockify_endpoint_repaired 0 (some ⟨false, true, ⟨none, none, none⟩⟩) none true) ∧
    (∃ tok, some (⟨true, true, ⟨none, none, none⟩⟩ : Token) = some tok ∧
        jwtDecode 0 tok = Except.ok tok.payload) :=
  ⟨(C3_validate_before_handshake 0 none none true).1 rfl,
   (C3_validate_before_handshake 0 (some ⟨false, true, ⟨none, none, none⟩⟩) none true).2.1
     ⟨false, true, ⟨none, none, none⟩⟩ JwtError.decodeError rfl rfl,
   (C3_validate_before_handshake 0 (some ⟨true, true, ⟨none, none, none⟩⟩) none true).2.2.1
     (by decide)⟩

/-- C7: the claim fails on the code as shipped, because src/worker/main.py
does not parse (line 587) and the endpoint never runs; this theorem
documents that the claim describes the evident intent, proved against the
minimally repaired endpoint: a token that verifies and is unexpired whose
embedded session id (sessionId field, falling back to agentId) differs
from the sessionId query parameter is not rejected, and when the upstream
connect succeeds the trace records only the warning and still proceeds
through accept, upstream connect and relay. -/
theorem C7_session_mismatch_warning_only (now : Int) (tok : Token) (sid : String)
    (hwf : tok.wellFormed = true) (hsv : tok.sigValid = true)
    (hexp : ∀ e, tok.payload.exp = some e → now < e)
    (hts : truthy (pyOr tok.payload.sessionId tok.payload.agentId) = true)
    (hsid : sid ≠ "")
    (hne : pyOr tok.payload.sessionId tok.payload.agentId ≠ some sid) :
    websockify_endpoint_repaired now (some tok) (some sid) true =
      [TunnelEvent.warnMismatch, TunnelEvent.accept, TunnelEvent.connectUpstream,
       TunnelEvent.relay] := by
  obtain ⟨wf, sv, ⟨tsid, taid, texp⟩⟩ := tok
  simp only at hwf hsv hexp hts hne
  subst hwf hsv
  have hcond : (truthy (pyOr tsid taid) && truthy (some sid) &&
      (pyOr tsid taid != some sid)) = true := by
    have h2 : truthy (some sid) = true := by
      simp only [truthy, Bool.not_eq_true']
      exact beq_eq_false_iff_ne.mpr hsid
    have h3 : (pyOr tsid taid != some sid) = true := bne_iff_ne.mpr hne
    rw [hts, h2, h3]; rfl
  cases texp with
  | none => simp [websockify_endpoint_repaired, jwtDecode, hcond, warnEvents, bridgeEvents]
  | some e =>
      have hgt : ¬ e ≤ now := by have := hexp e rfl; omega
      simp [websockify_endpoint_repaired, jwtDecode, hgt, hcond, warnEvents, bridgeEvents]

/-- C7 witness: a valid token embedding session id a presented with query
session id b reaches the relaying state with only a warning. -/
theorem C7_session_mismatch_warning_only_witness :
    websockify_endpoint_repaired 0 (some ⟨true, true, ⟨some "a", none, none⟩⟩) (some "b") true =
      [TunnelEvent.warnMismatch, TunnelEvent.accept, TunnelEvent.connectUpstream,
       TunnelEvent.relay] :=
  C7_session_mismatch_warning_only 0 ⟨true, true, ⟨some "a", none, none⟩⟩ "b"
    rfl rfl (fun _ he => Option.noConfusion he) (by decide) (by decide) (by decide)

/-- C10: the claim fails on the code as shipped, because src/worker/main.py
does not parse (line 587) and the endpoint never runs; this theorem
documents that the claim describes the evident intent, proved against the
minimally repaired endpoint: a token whose signature verifies but whose
payload carries no exp field passes validation (the expiry check applies
only when an exp field is present), and the connection is accepted and,
when the upstream connect succeeds, relayed. -/
theorem C10_missing_exp_accepted (now : Int) (tok : Token) (sid? : Option String)
    (hwf : tok.wellFormed = true) (hsv : tok.sigValid = true)
    (hexp : tok.payload.exp = none) :
    jwtDecode now tok = Except.ok tok.payload ∧
    TunnelEvent.relay ∈ websockify_endpoint_repaired now (some tok) sid? true := by
  refine ⟨by simp [jwtDecode, hwf, hsv, hexp], ?_⟩
  refine (relay_mem_iff now tok sid? true).mpr ⟨hwf, hsv, ?_, rfl⟩
  intro e he
  rw [hexp] at he
  exact Option.noConfusion he

/-- C10 witness: a well-signed token with no exp field, checked at an
arbitrarily late clock, still reaches the relaying state. -/
theorem C10_missing_exp_accepted_witness :
    jwtDecode 1000000 (⟨true, true, ⟨some "s", none, none⟩⟩ : Token) =
      Except.ok (⟨some "s", none, none⟩ : Payload) ∧
    TunnelEvent.relay ∈
      websockify_endpoint_repaired 1000000 (some ⟨true, true, ⟨some "s", none, none⟩⟩)
        none true :=
  C10_missing_exp_accepted 1000000 ⟨true, true, ⟨some "s", none, none⟩⟩ none rfl rfl rfl

end Tagent
